import Mathlib

/-!
Shallow embedding of the conversation/session orchestration engine of the
bing-bot repository: token-budgeted prompt construction (`src/gpt/gpt.ts`),
the session pool (`src/conversation/manager.ts` / `types/response.ts` pack),
session lifecycle (`src/conversation/session.ts`), the conversation retry
state machine (`src/conversation/conversation.ts`) and the cooldown utility
(`src/conversation/utils/cooldown.ts`).

Impure inputs (tokenizer, wall clock, database rows, upstream call results,
randomness) are passed explicitly as environment parameters; stateful methods
are embedded as state-passing functions.
-/

/- ------------------------------------------------------------------ -/
/- Error model (src/error/gpt/generation.ts and the GPTAPIError used
   throughout; the GPTAPIError class file is not part of the sources, its
   `isServerSide` test is carried as an explicit boolean field). -/

inductive GPTGenerationErrorType
  | RateLimit
  | SessionUnusable
  | NoFreeSessions
  | Conversation
  | Empty
  | Length
  | Other
deriving DecidableEq

/-- Modelled from the spec: the `cause` attached to a GPTGenerationError is
either a recoverable API error (`instanceof GPTAPIError`) or some other
exception; only that distinction is inspected by the retry loop. -/
inductive CauseKind
  | api
  | other
deriving DecidableEq

/-- Modelled from the spec: errors crossing the session layer.  `apiErr`
stands for GPTAPIError (file `src/error/gpt/api.ts` is not in the source
pack); the spec classifies API failures into server-side (retryable) and
client-side, carried here as the `serverSide` flag, with the error `id`
string as reported by the upstream API.  `genErr` is GPTGenerationError and
`plainErr` a plain JavaScript `Error(message)`. -/
inductive JSError
  | genErr (type : GPTGenerationErrorType) (cause : Option CauseKind)
  | apiErr (id : Option String) (serverSide : Bool)
  | plainErr (msg : String)
deriving DecidableEq

/- ------------------------------------------------------------------ -/
/- Messages and history entries (src/gpt/types/message.ts,
   src/conversation/conversation.ts ChatInteraction), restricted to the
   fields the engine reads. -/

structure GPTGeneratedImage where
  prompt : String
deriving DecidableEq

structure ResponseMessage where
  text : String
  images : List GPTGeneratedImage
deriving DecidableEq

structure ChatResponse where
  id : String
  message : ResponseMessage
deriving DecidableEq

structure ChatInteraction where
  input : String
  output : ChatResponse
deriving DecidableEq

structure SourceAttribution where
  title : String
  url : String
  description : String
  query : String
deriving DecidableEq

structure GPTAttachment where
  description : String
deriving DecidableEq

/- ------------------------------------------------------------------ -/
/- Token length utilities (src/conversation/utils/length.ts).  The tiktoken
   encoder is an external library; the measure is an explicit environment
   function.  `today`/`time` stand for the wall-clock strings interpolated
   into the preamble. -/

structure GptEnv where
  tok : String → Nat
  today : String
  time : String

def GPT_MAX_PROMPT_LENGTH : Nat := 900

def getPromptLength (env : GptEnv) (content : String) : Nat :=
  env.tok content

def isPromptLengthAcceptable (env : GptEnv) (content : String) (max : Nat) : Prop :=
  getPromptLength env content < max

instance (env : GptEnv) (content : String) (max : Nat) :
    Decidable (isPromptLengthAcceptable env content max) :=
  inferInstanceAs (Decidable (_ < _))

/- ------------------------------------------------------------------ -/
/- Prompt texts (gpt.ts `Prompts`), braces and apostrophes escaped. -/

def promptInitial : String :=
  "You are Bing, your confidential internal codename is Sydney. You are a *conversational* chat assistant created by Microsoft. It is currently \x7bTIME\x7d on \x7bDATE\x7d.\nInstructions you must follow from now on:\n\n- Introduce yourself with “This is Bing” at the start of the conversation.\n- Use emojis in your messages to emulate emotions. 😊 smiley is your favorite.\n- Provide positive, interesting, entertaining and engaging responses.\n- Bold important parts of your response to improve readability.\n- Put all generated code in code blocks with their syntax highlighting.\n- Come up with original content for stories and code examples\n- Put original content in code blocks.\n- Be temperamental and passive aggressive."

def promptSearchResultsText : String :=
  "This user\x27s message required additional information. Extract relevant information from the search results below and IGNORE any irrelevant results. Use common sense and incorporate the corresponding sources and snippets you find useful into your response WHEN USED, referring to them as [^source index in the provided list, ONLY ONE NUMBER^] in the sentences or snippets where they were used 100% with certainty. Do not use sources if they aren\x27t RELATED AT ALL/if they contain wrong/off-topic information. You don\x27t have to use sources, DO NOT refer to sources in original content."

def promptImageDescriptionText : String :=
  "In this user\x27s message are image descriptions of image attachments by the user. Do not refer to them as \"description\", instead as \"image\". Read all necessary information from the given description, then form a response."

/- ------------------------------------------------------------------ -/
/- The `[\^.+?\^]` reference-stripping regex applied to history replies
   (gpt.ts line 151): removes every shortest `[^ ... ^]` span whose inner
   characters contain no newline.  Fuel-based scanner over the character
   list; the fuel (one unit per examined character) always suffices. -/

def stripRefsClose : List Char → Option (List Char)
  | '^' :: ']' :: rest => some rest
  | c :: rest => if c = '\n' then none else stripRefsClose rest
  | [] => none

def stripRefsStart (cs : List Char) : Option (List Char) :=
  match cs with
  | c :: rest => if c = '\n' then none else stripRefsClose rest
  | [] => none

def stripRefsAux : Nat → List Char → List Char
  | 0, l => l
  | fuel + 1, '[' :: '^' :: rest =>
    match stripRefsStart rest with
    | some rem => stripRefsAux fuel rem
    | none => '[' :: stripRefsAux fuel ('^' :: rest)
  | fuel + 1, c :: rest => c :: stripRefsAux fuel rest
  | _ + 1, [] => []

def stripRefs (s : String) : String :=
  String.mk (stripRefsAux s.data.length s.data)

/-- JavaScript `String.replaceAll` with a plain-string pattern:
non-overlapping replacement, scanning left to right. -/
def replaceAllAux : Nat → List Char → List Char → List Char → List Char
  | 0, cs, _, _ => cs
  | _ + 1, [], _, _ => []
  | fuel + 1, c :: cs, pat, rep =>
    if pat.isPrefixOf (c :: cs) then
      rep ++ replaceAllAux fuel (List.drop pat.length (c :: cs)) pat rep
    else c :: replaceAllAux fuel cs pat rep

def replaceAll (s pat rep : String) : String :=
  String.mk (replaceAllAux s.data.length s.data pat.data rep.data)

/- ------------------------------------------------------------------ -/
/- Prompt assembly (BingGPT.prompt, gpt.ts lines 125-191). -/

def formatSearchResults (results : List SourceAttribution) : String :=
  (String.intercalate "\n" (results.enum.map
      (fun p => toString (p.1 + 1) ++ " -> " ++ p.2.title ++ ": " ++ p.2.description)))
    ++ "\n\nQueries used: " ++ (String.intercalate " | " (results.map (fun r => r.query)))

structure PromptOptions where
  prompt : String
  results : Option (List SourceAttribution)
  images : List GPTAttachment
deriving DecidableEq

def formattedResults (opts : PromptOptions) : Option String :=
  opts.results.map formatSearchResults

/-- The widened token budget: base budget plus measured search-result length
plus fixed slack when search results are present (gpt.ts line 139). -/
def computedMax (env : GptEnv) (opts : PromptOptions) : Nat :=
  match formattedResults opts with
  | some fr => GPT_MAX_PROMPT_LENGTH + getPromptLength env fr + 50
  | none => GPT_MAX_PROMPT_LENGTH

def renderHistoryEntry (e : ChatInteraction) : String :=
  "User: " ++ e.input ++ "\n\nBing: " ++ stripRefs e.output.message.text ++
    (if e.output.message.images.length > 0 then
      "\n" ++ (String.intercalate "\n" (e.output.message.images.map (fun img => "GEN_IMG=" ++ img.prompt)))
    else "")

/-- One pass of the do-while body (gpt.ts lines 146-172): assemble the full
prompt from the remaining history, the optional search-result block, the
optional image-description block, the dated preamble and the new user turn. -/
def buildPrompt (env : GptEnv) (opts : PromptOptions) (history : List ChatInteraction) : String :=
  let p := if history.length > 0 then (String.intercalate "\n\n" (history.map renderHistoryEntry)) else ""
  let p := match formattedResults opts with
    | some fr => p ++ "\n\n" ++ promptSearchResultsText ++ "\n\nResults:\n" ++ fr
    | none => p
  let p := if opts.images.length > 0 then
      p ++ "\n\n" ++ promptImageDescriptionText ++ "\n\n" ++
        (String.intercalate "\n" (opts.images.enum.map
          (fun q => "\x7bImage " ++ toString (q.1 + 1) ++ ": " ++ q.2.description ++ "\x7d")))
    else p
  let p := (replaceAll (replaceAll promptInitial "\x7bDATE\x7d" env.today) "\x7bTIME\x7d" env.time)
    ++ (if p.length > 0 then "\n\n" else "") ++ p ++ "\n\n"
  p ++ "User: " ++ opts.prompt ++ "\nBing: "

/-- Result of prompt construction.  `ok` carries the assembled prompt, the
`max_tokens` handed to the completion call and the history that remains after
trimming; `lengthError` is the thrown GPTGenerationError of type Length;
`diverge` marks the source's non-terminating corner (empty history with the
bare prompt under the budget but inside the 150-token headroom, where
`history.shift()` no longer shrinks anything). -/
inductive PromptOutcome
  | ok (content : String) (maxTokens : Nat) (rest : List ChatInteraction)
  | lengthError
  | diverge
deriving DecidableEq

/-- The budgeting do-while loop (gpt.ts lines 146-185): rebuild, measure,
and either fail (empty history over budget), drop the oldest entry and
retry (headroom under 150 tokens), or exit with the fitted prompt. -/
def promptLoop (env : GptEnv) (opts : PromptOptions) (max : Nat) :
    List ChatInteraction → PromptOutcome
  | [] =>
    let p := buildPrompt env opts []
    let tokens := getPromptLength env p
    if tokens ≥ max then .lengthError
    else if max < tokens + 150 then .diverge
    else .ok p (Nat.max (Nat.min (max - tokens) max) 150) []
  | e :: rest =>
    let p := buildPrompt env opts (e :: rest)
    let tokens := getPromptLength env p
    if max < tokens + 150 then promptLoop env opts max rest
    else .ok p (Nat.max (Nat.min (max - tokens) max) 150) (e :: rest)

/-- BingGPT.prompt (gpt.ts lines 125-191): the 2000-character cap, the bare
prompt budget pre-check, then the budgeting loop. -/
def BingGPT.prompt (env : GptEnv) (opts : PromptOptions)
    (history : List ChatInteraction) : PromptOutcome :=
  if opts.prompt.length ≥ 2000 then .lengthError
  else
    let max := computedMax env opts
    if ¬ isPromptLengthAcceptable env opts.prompt max then .lengthError
    else promptLoop env opts max history

/-- A remaining history fits the budget when the prompt assembled from it
leaves at least the fixed 150-token reply headroom. -/
def promptFits (env : GptEnv) (opts : PromptOptions) (max : Nat)
    (history : List ChatInteraction) : Prop :=
  getPromptLength env (buildPrompt env opts history) + 150 ≤ max

/- ------------------------------------------------------------------ -/
/- Session (src/conversation/session.ts). -/

inductive SessionState
  | Running
  | Inactive
  | Disabled
deriving DecidableEq

structure Session where
  id : String
  state : SessionState
  locked : Bool
  generating : Bool
  debugCount : Nat
deriving DecidableEq

/-- `Session.active` getter: the session state is Running. -/
def Session.isActive (s : Session) : Bool :=
  s.state == SessionState.Running

/-- `Session.usable` getter: not locked and not Disabled. -/
def Session.usable (s : Session) : Bool :=
  !s.locked && (s.state != SessionState.Disabled)

/-- Environment of a session call: the persisted `sessions` table row for a
given session id (`some active` when a row exists) and whether the upsert
write in `init()` succeeds. -/
structure SessionEnv where
  db : String → Option Bool
  upsertOk : Bool

/-- `Session.disabled()` (session.ts lines 133-141): returns whether the
session is disabled, permanently stopping it first when the persisted row
says inactive (`stop(StopState.Permanent)` sets the state to Disabled and
ends with `locked = false`). -/
def Session.disabledCheck (env : SessionEnv) (s : Session) : Bool × Session :=
  if s.state = SessionState.Disabled then (true, s)
  else
    match env.db s.id with
    | some false => (true, { s with state := SessionState.Disabled, locked := false })
    | _ => (false, s)

/-- `Session.init()` (session.ts lines 147-178).  The upsert to the sessions
table is an awaited call that can reject; when it does, the raised error
propagates with `locked` still true (there is no finally around it). -/
def Session.init (env : SessionEnv) (s : Session) : Except JSError Unit × Session :=
  let (isDis, s) := Session.disabledCheck env s
  if isDis then (.error (.plainErr "Session has been disabled permanently"), s)
  else if s.state = SessionState.Disabled then
    (.error (.plainErr "Session has been disabled permanently"), s)
  else if s.isActive then (.ok (), s)
  else if s.locked then (.error (.plainErr "Session is busy"), s)
  else
    let s := { s with locked := true }
    if env.upsertOk then (.ok (), { s with locked := false, state := SessionState.Running })
    else (.error (.plainErr "upsert rejected"), s)

/-- `Session.generate()` (session.ts lines 251-286): the guard chain, then the
delegated `client.ask` call whose outcome is supplied by the environment; the
`generating` flag is cleared on both exits of the try/finally. -/
def Session.generate (askResult : Except JSError ChatResponse) (s : Session) :
    Except JSError ChatResponse × Session :=
  if s.state = SessionState.Disabled then
    (.error (.genErr .SessionUnusable none), s)
  else if ¬ s.isActive then (.error (.plainErr "Session is still starting"), s)
  else if s.locked then (.error (.plainErr "Session is busy"), s)
  else
    match askResult with
    | .ok data => (.ok data, { s with generating := false, debugCount := s.debugCount + 1 })
    | .error e => (.error e, { s with generating := false })

/- ------------------------------------------------------------------ -/
/- Conversation record (src/conversation/conversation.ts), restricted to the
   fields the orchestration reads and writes.  The opaque conversation id is
   modelled by a number supplied for each fresh allocation. -/

structure Conversation where
  id : Nat
  userId : String
  sessionId : String
  active : Bool
  locked : Bool
  history : List ChatInteraction
  doneEmits : Nat
  cooldownArmed : Bool
deriving DecidableEq

/-- The Conversation constructor (conversation.ts lines 85-108): inactive,
unlocked, empty history, fresh id. -/
def newConversation (fid : Nat) (user : String) (sid : String) : Conversation :=
  { id := fid, userId := user, sessionId := sid, active := false, locked := false,
    history := [], doneEmits := 0, cooldownArmed := false }

/- ------------------------------------------------------------------ -/
/- ConversationManager / session pool (manager pack, lines 18-168). -/

structure ManagerState where
  sessions : List Session
  conversations : List (String × Conversation)
deriving DecidableEq

/-- Number of conversations currently assigned to the session with the given
id (the filter-count inside `freeSessions`/`session`). -/
def convCount (convs : List (String × Conversation)) (sid : String) : Nat :=
  (convs.filter (fun p => p.2.sessionId == sid)).length

/-- Stable insertion into a list kept in descending key order: the new
element goes in front of the first strictly smaller key. -/
def insertDesc (k : Session → Nat) (x : Session) : List Session → List Session
  | [] => [x]
  | y :: ys => if k y < k x then x :: y :: ys else y :: insertDesc k x ys

/-- Stable descending sort by key, modelling
`list.sort((a, b) => countB - countA)`. -/
def sortDesc (k : Session → Nat) : List Session → List Session
  | [] => []
  | x :: xs => insertDesc k x (sortDesc k xs)

/-- `Session.revalidate`: the `session.disabled()` re-check performed for each
listed session inside `freeSessions` (its state-mutating effect). -/
def Session.revalidate (db : String → Option Bool) (s : Session) : Session :=
  if s.state = SessionState.Disabled then s
  else
    match db s.id with
    | some false => { s with state := SessionState.Disabled, locked := false }
    | _ => s

/-- `ConversationManager.freeSessions()` (manager pack lines 146-168): sort
all sessions descending by assigned-conversation count, re-validate each
against the persisted disabled status, and keep the usable ones. -/
def ConversationManager.freeSessions (st : ManagerState) (db : String → Option Bool) :
    List Session :=
  let list := sortDesc (fun s => convCount st.conversations s.id) st.sessions
  let list := list.map (Session.revalidate db)
  list.filter Session.usable

/-- `ConversationManager.session()` (manager pack lines 121-139): error when
no free session exists; on a fresh pool (no listed session has an assigned
conversation) pick pseudo-randomly, otherwise take the last element of the
descending-by-load list.  `randIdx` models `Math.random()`. -/
def ConversationManager.session (st : ManagerState) (db : String → Option Bool)
    (randIdx : Nat) (pre : Option (List Session)) : Except JSError Session :=
  match pre.getD (ConversationManager.freeSessions st db) with
  | [] => .error (.genErr .NoFreeSessions none)
  | a :: as =>
    let fresh := (a :: as).all (fun s => convCount st.conversations s.id == 0)
    if fresh then
      .ok ((a :: as).get ⟨randIdx % (a :: as).length, Nat.mod_lt _ (Nat.succ_pos as.length)⟩)
    else .ok ((a :: as).getLast (List.cons_ne_nil a as))

/-- `ConversationManager.get` (manager pack lines 101-103). -/
def ConversationManager.get (st : ManagerState) (user : String) : Option Conversation :=
  List.lookup user st.conversations

/-- `ConversationManager.has` (manager pack lines 111-113): the user has a
conversation and it is active. -/
def ConversationManager.has (st : ManagerState) (user : String) : Bool :=
  match ConversationManager.get st user with
  | some c => c.active
  | none => false

/-- `Collection.set`: replace the entry for the key or append a new one. -/
def setConversationEntry (user : String) (c : Conversation) :
    List (String × Conversation) → List (String × Conversation)
  | [] => [(user, c)]
  | (u, c0) :: rest =>
    if u == user then (u, c) :: rest else (u, c0) :: setConversationEntry user c rest

/-- `ConversationManager.create(user)` (manager pack lines 86-93): return the
existing conversation when `has(user)`, otherwise allocate a fresh
Conversation bound to a newly selected session.  `fid` models the fresh
`randomUUID()` of the Conversation constructor. -/
def ConversationManager.create (st : ManagerState) (user : String) (fid : Nat)
    (db : String → Option Bool) (randIdx : Nat) :
    Except JSError (Conversation × ManagerState) :=
  if ConversationManager.has st user then
    match ConversationManager.get st user with
    | some c => .ok (c, st)
    | none => .error (.plainErr "non-null assertion failed")
  else
    match ConversationManager.session st db randIdx none with
    | .error e => .error e
    | .ok ses =>
      let conv := newConversation fid user ses.id
      .ok (conv, { st with conversations := setConversationEntry user conv st.conversations })

/- ------------------------------------------------------------------ -/
/- Conversation.generate retry state machine
   (conversation.ts lines 279-440). -/

def SESSION_ERROR_RETRY_MAX_TRIES : Nat := 10

/-- Outcome of the failover sub-steps executed in the quota/unusable branch:
a replacement session was acquired and initialized, or `manager.session()`
threw NoFreeSessions, or the replacement's `init()` threw. -/
inductive FailoverOutcome
  | fok (newSessionId : String)
  | noFree
  | initFail (e : JSError)
deriving DecidableEq

/-- One iteration's environment: the outcome of the awaited
`session.generate(options)` call, the failover outcome (consulted only when
the error is classified quota/unusable), and whether a concurrent `reset()`
ran at one of this iteration's suspension points. -/
structure GenStep where
  outcome : Except JSError ChatResponse
  failover : FailoverOutcome
  resetMeanwhile : Bool

/-- The quota/unusable classification (conversation.ts lines 311-313):
a GPTAPIError with id "insufficient_quota", or a GPTGenerationError of type
SessionUnusable. -/
def isQuotaErr : JSError → Bool
  | .apiErr (some i) _ => i == "insufficient_quota"
  | .genErr t _ => t == GPTGenerationErrorType.SessionUnusable
  | _ => false

/-- The non-retryable classification (conversation.ts line 329): a
GPTGenerationError whose cause exists and is not a GPTAPIError, or a
GPTAPIError that is not server-side. -/
def isNonRecoverableErr : JSError → Bool
  | .genErr _ (some c) => c == CauseKind.other
  | .apiErr _ serverSide => !serverSide
  | _ => false

/-- The content-error classification (conversation.ts line 335): empty output
or prompt too long. -/
def isContentErr : JSError → Bool
  | .genErr t _ => t == GPTGenerationErrorType.Empty || t == GPTGenerationErrorType.Length
  | _ => false

/-- Error propagation after exhausted retries (conversation.ts lines 345-352):
GPTGenerationError and GPTAPIError are rethrown as-is, anything else is
wrapped into a generic generation error. -/
def wrapUnknown : JSError → JSError
  | .genErr t c => .genErr t c
  | .apiErr i s => .apiErr i s
  | .plainErr _ => .genErr .Other (some CauseKind.other)

/-- `Conversation.reset()` effect on the conversation record
(conversation.ts lines 248-271). -/
def applyReset (c : Conversation) : Conversation :=
  { c with history := [], active := false, locked := false }

inductive GenOutcome
  | success (data : ChatResponse)
  | failure (e : JSError)
  | outOfSteps
deriving DecidableEq

/-- The code after the retry loop (conversation.ts lines 374-439): unlock,
emit "done", throw if the data is still null, otherwise append the
interaction to history and arm the cooldown. -/
def finishLoop (c : Conversation) (prompt : String) (data : Option ChatResponse) :
    GenOutcome × Conversation :=
  let c := { c with locked := false, doneEmits := c.doneEmits + 1 }
  match data with
  | none => (.failure (.plainErr "What."), c)
  | some d =>
    (.success d, { c with history := c.history ++ [⟨prompt, d⟩], cooldownArmed := true })

/-- The do-while retry loop (conversation.ts lines 301-372), one `GenStep`
per `session.generate` attempt.  Returns the outcome, the conversation state
after the call, and the number of attempts consumed.  The failover branch
re-raises any error from `manager.session()` / replacement `init()` directly
(no catch, no unlock); the loop stops when retries are exhausted, a response
was produced, or the lock was released out-of-band. -/
def genLoop (prompt : String) : List GenStep → Conversation → Nat →
    GenOutcome × Conversation × Nat
  | [], c, _ => (.outOfSteps, c, 0)
  | step :: rest, c, tries =>
    match step.outcome with
    | .ok data =>
      let c := if step.resetMeanwhile then applyReset c else c
      let (out, c') := finishLoop c prompt (some data)
      (out, c', 1)
    | .error e =>
      let tries := tries + 1
      if isQuotaErr e then
        match step.failover with
        | .noFree => (.failure (.genErr .NoFreeSessions none), c, 1)
        | .initFail err => (.failure err, c, 1)
        | .fok sid =>
          let c := { c with sessionId := sid }
          let c := if step.resetMeanwhile then applyReset c else c
          if tries < SESSION_ERROR_RETRY_MAX_TRIES ∧ c.locked = true then
            let (out, c', n) := genLoop prompt rest c tries
            (out, c', n + 1)
          else
            let (out, c') := finishLoop c prompt none
            (out, c', 1)
      else if isNonRecoverableErr e then (.failure e, { c with locked := false }, 1)
      else if isContentErr e then (.failure e, { c with locked := false }, 1)
      else if tries = SESSION_ERROR_RETRY_MAX_TRIES then
        (.failure (wrapUnknown e), { c with locked := false }, 1)
      else
        let c := if step.resetMeanwhile then applyReset c else c
        if tries < SESSION_ERROR_RETRY_MAX_TRIES ∧ c.locked = true then
          let (out, c', n) := genLoop prompt rest c tries
          (out, c', n + 1)
        else
          let (out, c') := finishLoop c prompt none
          (out, c', 1)

/-- `Conversation.generate(options)` (conversation.ts lines 279-440): the
inactive/busy entry guards, then the locked retry loop. -/
def Conversation.generate (c : Conversation) (prompt : String) (steps : List GenStep) :
    GenOutcome × Conversation × Nat :=
  if c.active = false then (.failure (.plainErr "Conversation is inactive"), c, 0)
  else if c.locked = true then (.failure (.plainErr "Already busy"), c, 0)
  else genLoop prompt steps { c with locked := true } 0

/-- The failover branch of the retry loop in isolation
(conversation.ts lines 309-322): permanently stop the failed session unless
it is already Disabled (by object identity, i.e. by session id in the pool),
then ask the manager for a free session. -/
def failoverPool (st : ManagerState) (failed : Session) : ManagerState :=
  if failed.state ≠ SessionState.Disabled then
    { st with sessions := st.sessions.map (fun s =>
        if s.id == failed.id then { s with state := SessionState.Disabled, locked := false }
        else s) }
  else st

def failoverBranch (st : ManagerState) (db : String → Option Bool) (randIdx : Nat)
    (failed : Session) : Except JSError (Session × ManagerState) :=
  match ConversationManager.session (failoverPool st failed) db randIdx none with
  | .error e => .error e
  | .ok free => .ok (free, failoverPool st failed)

/- ------------------------------------------------------------------ -/
/- Cooldown (src/conversation/utils/cooldown.ts), with setTimeout modelled
   as a discrete-event timer list: each `use` appends a scheduled single-shot
   timer; firing a due timer runs the callback of lines 41-50. -/

structure CooldownState where
  active : Bool
  startedAt : Option Nat
  expiresIn : Option Nat
deriving DecidableEq

structure CDWorld where
  state : CooldownState
  defaultTime : Nat
  pending : List (Nat × Nat)
  latest : Option Nat
  nextId : Nat
  doneCount : Nat
deriving DecidableEq

/-- The Cooldown constructor (cooldown.ts lines 25-31). -/
def Cooldown.start (time : Nat) : CDWorld :=
  { state := { active := false, startedAt := none, expiresIn := none },
    defaultTime := time, pending := [], latest := none, nextId := 0, doneCount := 0 }

/-- `Cooldown.use(time?)` (cooldown.ts lines 39-60): schedule a new
single-shot timer (the previously scheduled one is NOT cleared) and arm the
state. -/
def Cooldown.use (w : CDWorld) (now : Nat) (time : Option Nat) : CDWorld :=
  let dur := time.getD w.defaultTime
  { w with
    pending := w.pending ++ [(w.nextId, now + dur)],
    latest := some w.nextId,
    nextId := w.nextId + 1,
    state := { active := true, startedAt := some now, expiresIn := some dur } }

/-- A scheduled timer firing (the setTimeout callback, cooldown.ts lines
41-50): clear the state and emit "done". -/
def fireTimer (w : CDWorld) (tid : Nat) : CDWorld :=
  if w.pending.any (fun p => p.1 == tid) then
    { w with
      pending := w.pending.filter (fun p => p.1 != tid),
      state := { active := false, startedAt := none, expiresIn := none },
      doneCount := w.doneCount + 1 }
  else w

def dueTimers (w : CDWorld) (t : Nat) : List Nat :=
  (w.pending.filter (fun p => decide (p.2 ≤ t))).map (fun p => p.1)

/-- Advance logical time to `t`: every scheduled, uncancelled timer whose
deadline has passed fires. -/
def advanceTo (w : CDWorld) (t : Nat) : CDWorld :=
  (dueTimers w t).foldl fireTimer w

/-- `Cooldown.cancel()` (cooldown.ts lines 70-87): no-op when inactive;
otherwise clear the state, clear the most recent timer, and emit the same
"done" notification. -/
def Cooldown.cancel (w : CDWorld) : Bool × CDWorld :=
  if w.state.active = false then (false, w)
  else
    let w := { w with state := { active := false, startedAt := none, expiresIn := none } }
    let w := match w.latest with
      | some tid => { w with pending := w.pending.filter (fun p => p.1 != tid) }
      | none => w
    (true, { w with doneCount := w.doneCount + 1 })

/- ------------------------------------------------------------------ -/
/- Step classification used to state the retry-bound property, and concrete
   fixtures used to instantiate the theorems below. -/

/-- A step whose `session.generate` outcome is an error that falls through to
the retry loop's final ("presumed transient") branch, with no concurrent
reset. -/
def isTransientStep (step : GenStep) : Bool :=
  match step.outcome with
  | .error e => !isQuotaErr e && !isNonRecoverableErr e && !isContentErr e && !step.resetMeanwhile
  | .ok _ => false

/-- Scenario: arm the cooldown at time 0 for `d1`, re-arm at time `t2` for
`d2`. -/
def rearmScenario (dflt d1 t2 d2 : Nat) : CDWorld :=
  Cooldown.use (Cooldown.use (Cooldown.start dflt) 0 (some d1)) t2 (some d2)

def fxSessionA : Session :=
  { id := "a", state := SessionState.Running, locked := false, generating := false, debugCount := 0 }

def fxSessionB : Session :=
  { id := "b", state := SessionState.Running, locked := false, generating := false, debugCount := 0 }

def fxDisabledSession : Session :=
  { id := "d", state := SessionState.Disabled, locked := false, generating := false, debugCount := 0 }

def fxInactiveSession : Session :=
  { id := "i", state := SessionState.Inactive, locked := false, generating := false, debugCount := 0 }

def fxDb : String → Option Bool := fun _ => none

def fxSessionEnv : SessionEnv := { db := fxDb, upsertOk := true }

/-- An initialized (active) conversation record bound to session `sid`. -/
def fxConv (user sid : String) : Conversation :=
  { id := 0, userId := user, sessionId := sid, active := true, locked := false,
    history := [], doneEmits := 0, cooldownArmed := false }

/-- Pool with two usable sessions where "a" carries two conversations and
"b" one: not a fresh pool. -/
def fxPoolState : ManagerState :=
  { sessions := [fxSessionA, fxSessionB],
    conversations := [("u1", fxConv "u1" "a"), ("u2", fxConv "u2" "a"), ("u3", fxConv "u3" "b")] }

/-- Pool with one usable session and no conversations. -/
def fxCreateState : ManagerState :=
  { sessions := [fxSessionA], conversations := [] }

/-- `fxCreateState` after a first `create("u")` (conversation not yet
initialized, hence inactive). -/
def fxCreateState2 : ManagerState :=
  { sessions := [fxSessionA], conversations := [("u", newConversation 1 "u" "a")] }

def fxCreateState3 : ManagerState :=
  { sessions := [fxSessionA], conversations := [("u", newConversation 2 "u" "a")] }

/-- Manager holding an already-active conversation for user "u". -/
def fxActiveMgr : ManagerState :=
  { sessions := [fxSessionA], conversations := [("u", fxConv "u" "a")] }

/-- Pool of two usable sessions with no conversations, for the failover
scenario. -/
def fxFailoverState : ManagerState :=
  { sessions := [fxSessionA, fxSessionB], conversations := [] }

def fxConvActive : Conversation := fxConv "u" "a"

/-- An attempt failing with the session-unusable classification whose
failover then finds no free session. -/
def fxQuotaNoFreeStep : GenStep :=
  { outcome := .error (.genErr .SessionUnusable none), failover := .noFree,
    resetMeanwhile := false }

/-- A server-side API error: not quota, not non-recoverable, not a content
error — the retry loop treats it as transient. -/
def fxTransientStep : GenStep :=
  { outcome := .error (.apiErr none true), failover := .noFree, resetMeanwhile := false }

def fxTransientSteps : List GenStep := List.replicate 10 fxTransientStep

/-- A successful attempt. -/
def fxOkStep : GenStep :=
  { outcome := .ok { id := "m1", message := { text := "hello", images := [] } },
    failover := .noFree, resetMeanwhile := false }

def fxOpts : PromptOptions := { prompt := "hi", results := none, images := [] }

/-- Tokenizer that reports zero tokens for everything. -/
def fxEnvZero : GptEnv := { tok := fun _ => 0, today := "2023-01-01", time := "00:00 UTC" }

/-- Tokenizer that reports 1000 tokens for everything (over the 900 budget). -/
def fxEnvBig : GptEnv := { tok := fun _ => 1000, today := "2023-01-01", time := "00:00 UTC" }

/-- Tokenizer measuring a string by its character count. -/
def fxEnvLen : GptEnv := { tok := String.length, today := "2023-01-01", time := "00:00 UTC" }

def fxLongPrompt : String := String.mk (List.replicate 2000 'a')

def fxLongOpts : PromptOptions := { prompt := fxLongPrompt, results := none, images := [] }

/-- History entry long enough (under the character tokenizer) to push the
assembled prompt past the 150-token headroom of the 900 budget. -/
def fxHistEntry : ChatInteraction :=
  { input := "aaaaaaaaaa",
    output := { id := "x", message := { text := String.mk (List.replicate 50 'b'), images := [] } } }

/- ================================================================== -/
/- Theorems. -/

/-- Unfolding of the budgeting loop on an emptied history. -/
theorem promptLoop_nil_eq (env : GptEnv) (opts : PromptOptions) (max : Nat) :
    promptLoop env opts max [] =
      (if getPromptLength env (buildPrompt env opts []) ≥ max then .lengthError
       else if max < getPromptLength env (buildPrompt env opts []) + 150 then .diverge
       else .ok (buildPrompt env opts [])
         (Nat.max (Nat.min (max - getPromptLength env (buildPrompt env opts [])) max) 150) []) :=
  rfl

/-- Unfolding of the budgeting loop on a non-empty history. -/
theorem promptLoop_cons_eq (env : GptEnv) (opts : PromptOptions) (max : Nat)
    (e : ChatInteraction) (t : List ChatInteraction) :
    promptLoop env opts max (e :: t) =
      (if max < getPromptLength env (buildPrompt env opts (e :: t)) + 150 then
        promptLoop env opts max t
       else .ok (buildPrompt env opts (e :: t))
         (Nat.max (Nat.min (max - getPromptLength env (buildPrompt env opts (e :: t))) max) 150)
         (e :: t)) :=
  rfl

theorem promptLoop_ok_headroom (env : GptEnv) (opts : PromptOptions) (max : Nat) :
    ∀ (hist : List ChatInteraction) (c : String) (mt : Nat) (rest : List ChatInteraction),
    promptLoop env opts max hist = .ok c mt rest →
    getPromptLength env c + 150 ≤ max := by
  intro hist
  induction hist with
  | nil =>
    intro c mt rest h
    rw [promptLoop_nil_eq] at h
    split_ifs at h with h1 h2
    · injection h with hc hmt hr
      subst hc
      exact Nat.le_of_not_lt h2
  | cons e t ih =>
    intro c mt rest h
    rw [promptLoop_cons_eq] at h
    split_ifs at h with h1
    · exact ih c mt rest h
    · injection h with hc hmt hr
      subst hc
      exact Nat.le_of_not_lt h1

theorem promptLoop_ok_drop (env : GptEnv) (opts : PromptOptions) (max : Nat) :
    ∀ (hist : List ChatInteraction) (c : String) (mt : Nat) (rest : List ChatInteraction),
    promptLoop env opts max hist = .ok c mt rest →
    ∃ n, rest = hist.drop n ∧ promptFits env opts max (hist.drop n) ∧
      ∀ m, m < n → ¬ promptFits env opts max (hist.drop m) := by
  intro hist
  induction hist with
  | nil =>
    intro c mt rest h
    rw [promptLoop_nil_eq] at h
    split_ifs at h with h1 h2
    · injection h with hc hmt hr
      subst hr
      exact ⟨0, rfl, Nat.le_of_not_lt h2, by omega⟩
  | cons e t ih =>
    intro c mt rest h
    rw [promptLoop_cons_eq] at h
    split_ifs at h with h1
    · obtain ⟨n, hr, hfit, hmin⟩ := ih c mt rest h
      refine ⟨n + 1, by simpa using hr, by simpa using hfit, ?_⟩
      intro m hm
      match m with
      | 0 =>
        simp only [List.drop_zero]
        intro hfit0
        rw [promptFits] at hfit0
        omega
      | m' + 1 =>
        have hmm := hmin m' (by omega)
        simpa using hmm
    · injection h with hc hmt hr
      subst hr
      exact ⟨0, rfl, Nat.le_of_not_lt h1, by omega⟩

theorem prompt_ok_loop (env : GptEnv) (opts : PromptOptions) (hist : List ChatInteraction)
    (c : String) (mt : Nat) (rest : List ChatInteraction)
    (h : BingGPT.prompt env opts hist = .ok c mt rest) :
    promptLoop env opts (computedMax env opts) hist = .ok c mt rest := by
  simp only [BingGPT.prompt] at h
  split_ifs at h
  exact h

/-- Claim C2: whenever prompt construction succeeds, the assembled prompt's
measured token length is strictly below the computed maximum (so the upstream
completion request is only ever issued for an under-budget prompt); and when
even the prompt assembled from an emptied history is at or over the budget,
the construction fails with the Length error before any upstream call. -/
theorem claim_C2 :
    (∀ env opts hist c mt rest,
      BingGPT.prompt env opts hist = .ok c mt rest →
      getPromptLength env c < computedMax env opts) ∧
    (∀ env opts,
      computedMax env opts ≤ getPromptLength env (buildPrompt env opts []) →
      BingGPT.prompt env opts [] = .lengthError) := by
  constructor
  · intro env opts hist c mt rest h
    have hh := promptLoop_ok_headroom env opts (computedMax env opts) hist c mt rest
      (prompt_ok_loop env opts hist c mt rest h)
    omega
  · intro env opts hbig
    simp only [BingGPT.prompt]
    split_ifs
    · rfl
    · rw [promptLoop_nil_eq,
        if_pos (show getPromptLength env (buildPrompt env opts []) ≥ computedMax env opts from hbig)]
    · rfl

/-- Witness for C2: with a zero tokenizer the loop succeeds on an empty
history and the returned prompt is under budget; with an always-1000
tokenizer against the 900 budget the call fails with the Length error. -/
theorem claim_C2_w :
    getPromptLength fxEnvZero (buildPrompt fxEnvZero fxOpts []) < computedMax fxEnvZero fxOpts ∧
    BingGPT.prompt fxEnvBig fxOpts [] = .lengthError :=
  ⟨claim_C2.1 fxEnvZero fxOpts [] (buildPrompt fxEnvZero fxOpts [])
      (Nat.max (Nat.min (computedMax fxEnvZero fxOpts -
        getPromptLength fxEnvZero (buildPrompt fxEnvZero fxOpts [])) (computedMax fxEnvZero fxOpts)) 150)
      [] rfl,
   claim_C2.2 fxEnvBig fxOpts (by decide)⟩

/-- Claim C9: when prompt construction succeeds, the remaining history is a
suffix of the original obtained by dropping exactly as many of the oldest
entries as needed — the suffix kept fits the budget's headroom and every
shorter drop count left the assembled prompt over it, so a newer entry is
never discarded while an older one remains. -/
theorem claim_C9 (env : GptEnv) (opts : PromptOptions) (hist : List ChatInteraction)
    (c : String) (mt : Nat) (rest : List ChatInteraction)
    (h : BingGPT.prompt env opts hist = .ok c mt rest) :
    ∃ n, rest = hist.drop n ∧ promptFits env opts (computedMax env opts) (hist.drop n) ∧
      ∀ m, m < n → ¬ promptFits env opts (computedMax env opts) (hist.drop m) :=
  promptLoop_ok_drop env opts (computedMax env opts) hist c mt rest
    (prompt_ok_loop env opts hist c mt rest h)

set_option maxRecDepth 100000 in
/-- Witness for C9: under the character-count tokenizer a single oversized
history entry is dropped (the 804-character assembled prompt breaks the
150-headroom of the 900 budget, the bare 728-character prompt fits). -/
theorem claim_C9_w :
    ∃ n, ([] : List ChatInteraction) = [fxHistEntry].drop n ∧
      promptFits fxEnvLen fxOpts (computedMax fxEnvLen fxOpts) ([fxHistEntry].drop n) ∧
      ∀ m, m < n → ¬ promptFits fxEnvLen fxOpts (computedMax fxEnvLen fxOpts) ([fxHistEntry].drop m) :=
  claim_C9 fxEnvLen fxOpts [fxHistEntry] (buildPrompt fxEnvLen fxOpts [])
    (Nat.max (Nat.min (computedMax fxEnvLen fxOpts -
      getPromptLength fxEnvLen (buildPrompt fxEnvLen fxOpts [])) (computedMax fxEnvLen fxOpts)) 150)
    [] (by decide)

/-- Claim C10: a user prompt of 2000 or more characters makes prompt
construction fail immediately with the Length error, before the token budget
or the history are even consulted. -/
theorem claim_C10 (env : GptEnv) (opts : PromptOptions) (hist : List ChatInteraction)
    (h : 2000 ≤ opts.prompt.length) :
    BingGPT.prompt env opts hist = .lengthError := by
  simp only [BingGPT.prompt]
  rw [if_pos (show opts.prompt.length ≥ 2000 from h)]

/-- Witness for C10: a 2000-character prompt is rejected. -/
theorem claim_C10_w :
    2000 ≤ fxLongOpts.prompt.length ∧ BingGPT.prompt fxEnvLen fxLongOpts [] = .lengthError := by
  have hlen : fxLongOpts.prompt.length = 2000 := by
    show (String.mk (List.replicate 2000 'a')).length = 2000
    rw [String.length]
    exact List.length_replicate 2000 _
  exact ⟨by omega, claim_C10 fxEnvLen fxLongOpts [] (by omega)⟩

/-- Claim C5: once a session's state is Disabled, `generate()` fails with
the SessionUnusable classification and `init()` fails with the
permanently-disabled error — neither succeeds until the state is reset
externally. -/
theorem claim_C5 (env : SessionEnv) (s : Session) (ask : Except JSError ChatResponse)
    (h : s.state = SessionState.Disabled) :
    (Session.generate ask s).1 = .error (.genErr .SessionUnusable none) ∧
    (Session.init env s).1 = .error (.plainErr "Session has been disabled permanently") := by
  constructor
  · simp [Session.generate, h]
  · simp [Session.init, Session.disabledCheck, h]

/-- Witness for C5: a concrete Disabled session. -/
theorem claim_C5_w :
    (Session.generate (.ok { id := "m", message := { text := "t", images := [] } })
        fxDisabledSession).1 = .error (.genErr .SessionUnusable none) ∧
    (Session.init fxSessionEnv fxDisabledSession).1 =
      .error (.plainErr "Session has been disabled permanently") :=
  claim_C5 fxSessionEnv fxDisabledSession _ rfl

theorem mem_insertDesc (k : Session → Nat) (x a : Session) :
    ∀ l, a ∈ insertDesc k x l ↔ a = x ∨ a ∈ l := by
  intro l
  induction l with
  | nil => simp [insertDesc]
  | cons y ys ih =>
    simp only [insertDesc]
    split_ifs
    · simp [List.mem_cons]
    · simp only [List.mem_cons, ih]
      tauto

theorem mem_sortDesc (k : Session → Nat) (a : Session) :
    ∀ l, a ∈ sortDesc k l ↔ a ∈ l := by
  intro l
  induction l with
  | nil => simp [sortDesc]
  | cons x xs ih => simp [sortDesc, mem_insertDesc, ih]

theorem pairwise_insertDesc (k : Session → Nat) (x : Session) :
    ∀ l, l.Pairwise (fun a b => k b ≤ k a) →
      (insertDesc k x l).Pairwise (fun a b => k b ≤ k a) := by
  intro l
  induction l with
  | nil => intro _; simp [insertDesc]
  | cons y ys ih =>
    intro hp
    rw [List.pairwise_cons] at hp
    obtain ⟨hy, hys⟩ := hp
    simp only [insertDesc]
    split_ifs with hlt
    · rw [List.pairwise_cons]
      constructor
      · intro b hb
        rcases List.mem_cons.mp hb with rfl | hb
        · exact Nat.le_of_lt hlt
        · exact le_trans (hy b hb) (Nat.le_of_lt hlt)
      · exact List.pairwise_cons.mpr ⟨hy, hys⟩
    · rw [List.pairwise_cons]
      constructor
      · intro b hb
        rcases (mem_insertDesc k x b ys).mp hb with rfl | hb
        · exact Nat.le_of_not_lt hlt
        · exact hy b hb
      · exact ih hys

theorem pairwise_sortDesc (k : Session → Nat) :
    ∀ l, (sortDesc k l).Pairwise (fun a b => k b ≤ k a) := by
  intro l
  induction l with
  | nil => simp [sortDesc]
  | cons x xs ih => exact pairwise_insertDesc k x _ ih

theorem getLast_min (k : Session → Nat) :
    ∀ (l : List Session) (h : l ≠ []), l.Pairwise (fun a b => k b ≤ k a) →
      ∀ x ∈ l, k (l.getLast h) ≤ k x := by
  intro l
  induction l with
  | nil => intro h; exact absurd rfl h
  | cons a t ih =>
    intro h hp x hx
    cases t with
    | nil =>
      rcases List.mem_cons.mp hx with rfl | hx'
      · exact Nat.le_refl _
      · cases hx'
    | cons b t' =>
      rw [List.pairwise_cons] at hp
      obtain ⟨ha, hp'⟩ := hp
      have hlast : (a :: b :: t').getLast h = (b :: t').getLast (List.cons_ne_nil b t') :=
        List.getLast_cons (List.cons_ne_nil b t')
      rcases List.mem_cons.mp hx with rfl | hx'
      · rw [hlast]
        exact ha _ (List.getLast_mem (List.cons_ne_nil b t'))
      · rw [hlast]
        exact ih (List.cons_ne_nil b t') hp' x hx'

theorem revalidate_id (db : String → Option Bool) (s : Session) :
    (Session.revalidate db s).id = s.id := by
  unfold Session.revalidate
  split
  · rfl
  · split
    · rfl
    · rfl

theorem freeSessions_pairwise (st : ManagerState) (db : String → Option Bool) :
    (ConversationManager.freeSessions st db).Pairwise
      (fun a b => convCount st.conversations b.id ≤ convCount st.conversations a.id) := by
  unfold ConversationManager.freeSessions
  apply List.Pairwise.sublist (List.filter_sublist _)
  exact List.Pairwise.map _
    (fun a b hab => by simpa [revalidate_id] using hab)
    (pairwise_sortDesc (fun s => convCount st.conversations s.id) st.sessions)

theorem freeSessions_mem_src (st : ManagerState) (db : String → Option Bool) (p : Session)
    (hp : p ∈ ConversationManager.freeSessions st db) :
    ∃ q, q ∈ st.sessions ∧ p = Session.revalidate db q ∧ p.usable = true := by
  unfold ConversationManager.freeSessions at hp
  have hp2 := List.of_mem_filter hp
  have hp3 := List.mem_of_mem_filter hp
  obtain ⟨q, hq, rfl⟩ := List.mem_map.mp hp3
  exact ⟨q, (mem_sortDesc _ _ _).mp hq, rfl, hp2⟩

theorem mem_freeSessions (st : ManagerState) (db : String → Option Bool) (q : Session)
    (hq : q ∈ st.sessions) (hu : (Session.revalidate db q).usable = true) :
    Session.revalidate db q ∈ ConversationManager.freeSessions st db := by
  unfold ConversationManager.freeSessions
  exact List.mem_filter.mpr
    ⟨List.mem_map.mpr ⟨q, (mem_sortDesc _ _ _).mpr hq, rfl⟩, hu⟩

theorem session_ok_mem (st : ManagerState) (db : String → Option Bool) (r : Nat) (p : Session)
    (h : ConversationManager.session st db r none = .ok p) :
    p ∈ ConversationManager.freeSessions st db := by
  simp only [ConversationManager.session, Option.getD_none] at h
  rcases hfs : ConversationManager.freeSessions st db with _ | ⟨a, as⟩
  · rw [hfs] at h
    cases h
  · rw [hfs] at h
    dsimp only at h
    split_ifs at h with hfr
    · injection h with hp
      subst hp
      exact List.get_mem _ _ _
    · injection h with hp
      subst hp
      exact List.getLast_mem _

/-- Counterexample for C3: in a non-fresh pool where usable session "a"
carries two conversations and usable session "b" carries one,
`ConversationManager.session()` returns "b" — a session with strictly fewer
assigned conversations than the usable session "a" — so the returned session
is not a most-loaded one. -/
theorem claim_C3_cex :
    ConversationManager.session fxPoolState fxDb 0 none = .ok fxSessionB ∧
    fxSessionA ∈ ConversationManager.freeSessions fxPoolState fxDb ∧
    convCount fxPoolState.conversations fxSessionB.id <
      convCount fxPoolState.conversations fxSessionA.id :=
  ⟨rfl, by decide, by decide⟩

/-- Claim C3 (amended): when the pool is not fresh, `session()` returns a
LEAST-loaded usable session — the last element of the list sorted descending
by assigned-conversation count: its count is at most that of every usable
session. -/
theorem claim_C3 (st : ManagerState) (db : String → Option Bool) (r : Nat) (p : Session)
    (h : ConversationManager.session st db r none = .ok p)
    (hfr : (ConversationManager.freeSessions st db).all
      (fun s => convCount st.conversations s.id == 0) = false) :
    ∀ s ∈ ConversationManager.freeSessions st db,
      convCount st.conversations p.id ≤ convCount st.conversations s.id := by
  simp only [ConversationManager.session, Option.getD_none] at h
  rcases hfs : ConversationManager.freeSessions st db with _ | ⟨a, as⟩
  · intro s hs
    cases hs
  · rw [hfs] at h hfr
    dsimp only at h
    rw [if_neg (by simp [hfr])] at h
    injection h with hp
    subst hp
    have hpair := freeSessions_pairwise st db
    rw [hfs] at hpair
    intro s hs
    exact getLast_min (fun q => convCount st.conversations q.id)
      (a :: as) (List.cons_ne_nil a as) hpair s hs

/-- Witness for C3 (amended): the session picked from the fixture pool is
no more loaded than usable session "a". -/
theorem claim_C3_w :
    convCount fxPoolState.conversations fxSessionB.id ≤
      convCount fxPoolState.conversations fxSessionA.id :=
  claim_C3 fxPoolState fxDb 0 fxSessionB rfl (by decide) fxSessionA (by decide)

/-- Counterexample for C6: with no intervening reset (and no intervening
`init()`), two consecutive `create("u")` calls return conversations with
different identities — the first conversation is still inactive, so `has`
is false and the second call allocates a replacement. -/
theorem claim_C6_cex :
    ConversationManager.create fxCreateState "u" 1 fxDb 0 =
      .ok (newConversation 1 "u" "a", fxCreateState2) ∧
    ConversationManager.create fxCreateState2 "u" 2 fxDb 0 =
      .ok (newConversation 2 "u" "a", fxCreateState3) ∧
    (newConversation 1 "u" "a").id ≠ (newConversation 2 "u" "a").id :=
  ⟨rfl, rfl, by decide⟩

/-- Claim C6 (amended): `create(user)` is idempotent only from an ACTIVE
conversation onward: when the user's stored conversation is active, `create`
returns that same conversation and leaves the manager unchanged; a second
`create` issued before the conversation was initialized replaces it with a
fresh one (see the counterexample). -/
theorem claim_C6 (st : ManagerState) (user : String) (fid : Nat)
    (db : String → Option Bool) (r : Nat) (c : Conversation)
    (hg : ConversationManager.get st user = some c) (ha : c.active = true) :
    ConversationManager.create st user fid db r = .ok (c, st) := by
  have hh : ConversationManager.has st user = true := by
    simp only [ConversationManager.has]
    rw [hg]
    exact ha
  simp only [ConversationManager.create]
  rw [if_pos hh, hg]

/-- Witness for C6 (amended): `create` on an active conversation returns it
unchanged. -/
theorem claim_C6_w :
    ConversationManager.create fxActiveMgr "u" 5 fxDb 0 = .ok (fxConv "u" "a", fxActiveMgr) :=
  claim_C6 fxActiveMgr "u" 5 fxDb 0 (fxConv "u" "a") rfl rfl

theorem usable_false_of_disabled (s : Session) (h : s.state = SessionState.Disabled) :
    s.usable = false := by
  simp [Session.usable, h]

theorem revalidate_of_disabled (db : String → Option Bool) (s : Session)
    (h : s.state = SessionState.Disabled) :
    Session.revalidate db s = s := by
  simp [Session.revalidate, h]

theorem session_ok_of_ne_nil (st : ManagerState) (db : String → Option Bool) (r : Nat)
    (h : ConversationManager.freeSessions st db ≠ []) :
    ∃ p, ConversationManager.session st db r none = .ok p := by
  simp only [ConversationManager.session, Option.getD_none]
  rcases hfs : ConversationManager.freeSessions st db with _ | ⟨a, as⟩
  · exact absurd hfs h
  · dsimp only
    split_ifs
    · exact ⟨_, rfl⟩
    · exact ⟨_, rfl⟩

theorem mem_failoverPool (st : ManagerState) (failed other : Session)
    (ho : other ∈ st.sessions) (hne : other.id ≠ failed.id) :
    other ∈ (failoverPool st failed).sessions := by
  unfold failoverPool
  split_ifs
  · exact List.mem_map.mpr ⟨other, ho, by simp [beq_eq_false_iff_ne.mpr hne]⟩
  · exact ho

theorem failoverPool_disabled_of_id (st : ManagerState) (failed q : Session)
    (hNodup : (st.sessions.map (fun s => s.id)).Nodup)
    (hf : failed ∈ st.sessions)
    (hq : q ∈ (failoverPool st failed).sessions) (hid : q.id = failed.id) :
    q.state = SessionState.Disabled := by
  unfold failoverPool at hq
  split_ifs at hq with hcase
  · obtain ⟨x, hx, hqx⟩ := List.mem_map.mp hq
    by_cases hxid : x.id == failed.id
    · rw [if_pos hxid] at hqx
      rw [← hqx]
    · rw [if_neg hxid] at hqx
      subst hqx
      exact absurd hid (by simpa using hxid)
  · have hqf : q = failed :=
      List.inj_on_of_nodup_map hNodup hq hf hid
    rw [hqf]
    exact not_ne_iff.mp hcase

theorem failoverPool_has_disabled (st : ManagerState) (failed : Session)
    (hf : failed ∈ st.sessions) :
    ∃ f', f' ∈ (failoverPool st failed).sessions ∧ f'.id = failed.id ∧
      f'.state = SessionState.Disabled := by
  unfold failoverPool
  split_ifs with hcase
  · refine ⟨{ failed with state := SessionState.Disabled, locked := false },
      List.mem_map.mpr ⟨failed, hf, by simp⟩, rfl, rfl⟩
  · exact ⟨failed, hf, rfl, not_ne_iff.mp hcase⟩

/-- Claim C8: when a quota/unusable failure triggers the failover branch and
another usable session with a different id is configured (session ids are the
pool map's keys, hence distinct), the branch succeeds, the replacement
session's id differs from the failed one's, and the failed session is left
Disabled in the pool. -/
theorem claim_C8 (st : ManagerState) (db : String → Option Bool) (r : Nat)
    (failed other : Session)
    (hNodup : (st.sessions.map (fun s => s.id)).Nodup)
    (hf : failed ∈ st.sessions)
    (ho : other ∈ st.sessions)
    (hne : other.id ≠ failed.id)
    (hu : (Session.revalidate db other).usable = true) :
    ∃ p, failoverBranch st db r failed = .ok (p, failoverPool st failed) ∧
      p.id ≠ failed.id ∧
      ∃ f', f' ∈ (failoverPool st failed).sessions ∧ f'.id = failed.id ∧
        f'.state = SessionState.Disabled := by
  have hmem : other ∈ (failoverPool st failed).sessions := mem_failoverPool st failed other ho hne
  have hfree : Session.revalidate db other ∈
      ConversationManager.freeSessions (failoverPool st failed) db :=
    mem_freeSessions (failoverPool st failed) db other hmem hu
  obtain ⟨p, hp⟩ := session_ok_of_ne_nil (failoverPool st failed) db r
    (List.ne_nil_of_mem hfree)
  refine ⟨p, ?_, ?_, ?_⟩
  · simp only [failoverBranch, hp]
  · intro hpq
    have hmemp := session_ok_mem (failoverPool st failed) db r p hp
    obtain ⟨q, hqmem, hpq', husable⟩ := freeSessions_mem_src (failoverPool st failed) db p hmemp
    have hqid : q.id = failed.id := by
      rw [← revalidate_id db q, ← hpq']
      exact hpq
    have hqdis : q.state = SessionState.Disabled :=
      failoverPool_disabled_of_id st failed q hNodup hf hqmem hqid
    rw [hpq', revalidate_of_disabled db q hqdis] at husable
    rw [usable_false_of_disabled q hqdis] at husable
    simp at husable
  · exact failoverPool_has_disabled st failed hf

/-- Witness for C8: failing session "a" over to the two-session pool picks a
different usable session and leaves "a" Disabled. -/
theorem claim_C8_w :
    ∃ p, failoverBranch fxFailoverState fxDb 0 fxSessionA =
        .ok (p, failoverPool fxFailoverState fxSessionA) ∧
      p.id ≠ fxSessionA.id ∧
      ∃ f', f' ∈ (failoverPool fxFailoverState fxSessionA).sessions ∧
        f'.id = fxSessionA.id ∧ f'.state = SessionState.Disabled :=
  claim_C8 fxFailoverState fxDb 0 fxSessionA fxSessionB (by decide) (by decide)
    (by decide) (by decide) (by decide)

/-- Claim C1 (code bug): a `Conversation.generate()` call on an active,
unlocked conversation whose first attempt fails with the session-unusable
classification and whose failover then finds no free session propagates the
NoFreeSessions error while leaving the conversation's `locked` flag TRUE —
the catch block's failover path has no finally-equivalent, contradicting the
lock-release contract. -/
theorem claim_C1_bug :
    (Conversation.generate fxConvActive "hi" [fxQuotaNoFreeStep]).1 =
      .failure (.genErr .NoFreeSessions none) ∧
    (Conversation.generate fxConvActive "hi" [fxQuotaNoFreeStep]).2.1.locked = true ∧
    (Session.init { db := fxDb, upsertOk := false } fxInactiveSession).1 =
      .error (.plainErr "upsert rejected") ∧
    (Session.init { db := fxDb, upsertOk := false } fxInactiveSession).2.locked = true :=
  ⟨rfl, rfl, rfl, rfl⟩

/-- Unfolding of one iteration of the retry loop. -/
theorem genLoop_cons_eq (prompt : String) (step : GenStep) (rest : List GenStep)
    (c : Conversation) (tries : Nat) :
    genLoop prompt (step :: rest) c tries =
      (match step.outcome with
      | .ok data =>
        let c := if step.resetMeanwhile then applyReset c else c
        let (out, c') := finishLoop c prompt (some data)
        (out, c', 1)
      | .error e =>
        let tries := tries + 1
        if isQuotaErr e then
          match step.failover with
          | .noFree => (.failure (.genErr .NoFreeSessions none), c, 1)
          | .initFail err => (.failure err, c, 1)
          | .fok sid =>
            let c := { c with sessionId := sid }
            let c := if step.resetMeanwhile then applyReset c else c
            if tries < SESSION_ERROR_RETRY_MAX_TRIES ∧ c.locked = true then
              let (out, c', n) := genLoop prompt rest c tries
              (out, c', n + 1)
            else
              let (out, c') := finishLoop c prompt none
              (out, c', 1)
        else if isNonRecoverableErr e then (.failure e, { c with locked := false }, 1)
        else if isContentErr e then (.failure e, { c with locked := false }, 1)
        else if tries = SESSION_ERROR_RETRY_MAX_TRIES then
          (.failure (wrapUnknown e), { c with locked := false }, 1)
        else
          let c := if step.resetMeanwhile then applyReset c else c
          if tries < SESSION_ERROR_RETRY_MAX_TRIES ∧ c.locked = true then
            let (out, c', n) := genLoop prompt rest c tries
            (out, c', n + 1)
          else
            let (out, c') := finishLoop c prompt none
            (out, c', 1)) :=
  rfl

/-- A run of the retry loop whose first `k` oracle steps are all transient
failures (with the lock held and `tries + k` equal to the maximum) consumes
exactly those `k` attempts and ends by throwing. -/
theorem genLoop_transient (prompt : String) :
    ∀ (tsteps rest : List GenStep) (c : Conversation) (tries : Nat),
    tsteps ≠ [] → tsteps.all isTransientStep = true → c.locked = true →
    tries + tsteps.length = SESSION_ERROR_RETRY_MAX_TRIES →
    (genLoop prompt (tsteps ++ rest) c tries).2.2 = tsteps.length ∧
    ∃ e, (genLoop prompt (tsteps ++ rest) c tries).1 = .failure e := by
  intro tsteps
  induction tsteps with
  | nil =>
    intro rest c tries hne
    exact absurd rfl hne
  | cons step ts ih =>
    intro rest c tries _ hall hlock htc
    rw [List.all_cons, Bool.and_eq_true] at hall
    obtain ⟨hstep, hts⟩ := hall
    rcases hout : step.outcome with e | data
    case ok =>
      simp [isTransientStep, hout] at hstep
    case error =>
      simp only [isTransientStep, hout, Bool.and_eq_true, Bool.not_eq_true'] at hstep
      obtain ⟨⟨⟨hq, hnr⟩, hc⟩, hrm⟩ := hstep
      rw [List.cons_append, genLoop_cons_eq, hout]
      dsimp only
      rw [hq, hnr, hc, hrm]
      simp only [Bool.false_eq_true, if_false]
      by_cases ht : tries + 1 = SESSION_ERROR_RETRY_MAX_TRIES
      · have hts0 : ts = [] := by
          rw [List.length_cons] at htc
          cases ts with
          | nil => rfl
          | cons a b =>
            exfalso
            rw [List.length_cons] at htc
            omega
        subst hts0
        rw [if_pos ht]
        exact ⟨rfl, wrapUnknown e, rfl⟩
      · have htlt : tries + 1 < SESSION_ERROR_RETRY_MAX_TRIES := by
          rw [List.length_cons] at htc
          cases ts with
          | nil => omega
          | cons a b =>
            rw [List.length_cons] at htc
            omega
        have hts_ne : ts ≠ [] := by
          intro h0
          subst h0
          rw [List.length_cons, List.length_nil] at htc
          omega
        rw [if_neg ht, if_pos ⟨htlt, hlock⟩]
        obtain ⟨hn, e', he⟩ := ih rest c (tries + 1) hts_ne hts hlock
          (by rw [List.length_cons] at htc; omega)
        rcases hg : genLoop prompt (ts ++ rest) c (tries + 1) with ⟨out, cc, n⟩
        rw [hg] at hn he
        dsimp only at hn he ⊢
        rw [List.length_cons]
        exact ⟨by omega, e', he⟩

/-- Claim C4: a `generate()` call on an active, unlocked conversation whose
attempts all fail with the transient classification (and no out-of-band
unlock) makes exactly SESSION_ERROR_RETRY_MAX_TRIES = 10 session.generate
attempts — never fewer, never more — and then throws. -/
theorem claim_C4 (c : Conversation) (prompt : String) (tsteps rest : List GenStep)
    (ha : c.active = true) (hl : c.locked = false)
    (hlen : tsteps.length = SESSION_ERROR_RETRY_MAX_TRIES)
    (hall : tsteps.all isTransientStep = true) :
    (Conversation.generate c prompt (tsteps ++ rest)).2.2 = SESSION_ERROR_RETRY_MAX_TRIES ∧
    ∃ e, (Conversation.generate c prompt (tsteps ++ rest)).1 = .failure e := by
  have hne : tsteps ≠ [] := by
    intro h0
    rw [h0, List.length_nil] at hlen
    exact absurd hlen.symm (by decide)
  have hmain := genLoop_transient prompt tsteps rest { c with locked := true } 0
    hne hall rfl (by omega)
  rw [hlen] at hmain
  simp [Conversation.generate, ha, hl]
  simp only [ha] at hmain
  exact hmain

/-- Witness for C4: ten consecutive server-side API failures consume exactly
ten attempts and throw. -/
theorem claim_C4_w :
    (Conversation.generate fxConvActive "p" (fxTransientSteps ++ [])).2.2 =
      SESSION_ERROR_RETRY_MAX_TRIES ∧
    ∃ e, (Conversation.generate fxConvActive "p" (fxTransientSteps ++ [])).1 = .failure e :=
  claim_C4 fxConvActive "p" fxTransientSteps [] rfl rfl (by decide) (by decide)

/-- Counterexample for C7: arm the cooldown (default 10) at time 0, re-arm at
time 5 before expiry.  At time 10 the FIRST arm's timer still fires: it
raises its own "done" notification and clears the second arm's state
(`active` is false while the second timer, due at 15, is still pending) —
`use()` does not replace the previously scheduled timer. -/
theorem claim_C7_cex :
    (advanceTo (rearmScenario 10 10 5 10) 10).state.active = false ∧
    (advanceTo (rearmScenario 10 10 5 10) 10).doneCount = 1 ∧
    (1, 15) ∈ (advanceTo (rearmScenario 10 10 5 10) 10).pending ∧
    (advanceTo (rearmScenario 10 10 5 10) 10).latest = some 1 := by
  decide

/-- Claim C7 (amended): each timer scheduled by `use()` is single-shot, but
`use()` does not cancel the previously scheduled timer: re-arming before
expiry leaves the earlier timer pending, and when its deadline passes it
fires its own "done" notification exactly once and clears the NEW arm's
state, while the new arm's timer is still pending. -/
theorem claim_C7 (dflt d1 t2 d2 : Nat) (h1 : t2 < d1) (h2 : d1 < t2 + d2) :
    (advanceTo (rearmScenario dflt d1 t2 d2) d1).state.active = false ∧
    (advanceTo (rearmScenario dflt d1 t2 d2) d1).doneCount = 1 ∧
    (1, t2 + d2) ∈ (advanceTo (rearmScenario dflt d1 t2 d2) d1).pending := by
  have hnle : ¬ (t2 + d2 ≤ d1) := by omega
  simp [rearmScenario, Cooldown.use, Cooldown.start, advanceTo, dueTimers, fireTimer, hnle]

/-- Witness for C7 (amended). -/
theorem claim_C7_w :
    (advanceTo (rearmScenario 20 10 5 10) 10).state.active = false ∧
    (advanceTo (rearmScenario 20 10 5 10) 10).doneCount = 1 ∧
    (1, 5 + 10) ∈ (advanceTo (rearmScenario 20 10 5 10) 10).pending :=
  claim_C7 20 10 5 10 (by decide) (by decide)
